import Mathlib

/-!
A shallow embedding of the ETL pipeline in `src/etl/etl.py` and of the query
runner in `src/run_query.py`.

DataFrames are modelled as lists of record rows; nullable cells are `Option`
(with `none` playing the role of NaN/NaT); `pd.Timestamp` values are a
calendar date together with a time-of-day component; decimal-valued columns
are `Rat`.  Fallible pandas operations return `Except EtlErr`.
-/

/-- Model of a pandas `Timestamp`: a calendar date plus a time-of-day
component (nanoseconds within the day, abstracted as a `Nat`).  pandas
timestamps range over the years 1677..2262 (the nanosecond-epoch bounds);
`tsValid` captures that range. -/
structure Timestamp where
  year : Nat
  month : Nat
  day : Nat
  nsOfDay : Nat
deriving DecidableEq

/-- Timestamps representable by pandas: the year lies within the
nanosecond-epoch bounds and month/day within calendar bounds. -/
def tsValid (t : Timestamp) : Bool :=
  decide (1677 ≤ t.year) && decide (t.year ≤ 2262) &&
  decide (1 ≤ t.month) && decide (t.month ≤ 12) &&
  decide (1 ≤ t.day) && decide (t.day ≤ 31)

/-- A non-null `OrderDate` cell as it sits in a frame: a date string that
parses to timestamp `t` (`strGood t`), a string no date format matches
(`strBad`), or an already-converted datetime value (`dt t`). -/
inductive PDate where
  | strGood (t : Timestamp)
  | strBad
  | dt (t : Timestamp)
deriving DecidableEq

/-- One row of the extracted orders frame (columns per the orders CSV:
OrderID, CustomerID, ProductID, OrderDate, Quantity, Price); `none` is a
missing cell. -/
structure RawOrder where
  orderID : Option Int
  customerID : Option Int
  productID : Option Int
  orderDate : Option PDate
  quantity : Option Int
  price : Option Rat
deriving DecidableEq

/-- One row of the extracted products frame (columns ProductID, ProductName,
Category, Cost). -/
structure RawProduct where
  productID : Option Int
  productName : Option String
  category : Option String
  cost : Option Rat
deriving DecidableEq

/-- Errors raised by the pandas operations the pipeline uses. -/
inductive EtlErr where
  /-- Raised by `pd.to_datetime` on an unparsable string. -/
  | parseError
  /-- Raised by `.astype(int)` on a NaN (produced by `strftime` of NaT). -/
  | astypeError
deriving DecidableEq

/-- Numeric value of a most-significant-first decimal digit list: the
composition of a digit-string format with `astype(int)`. -/
def parseDigits (ds : List Nat) : Nat := ds.foldl (fun a d => 10 * a + d) 0

/-- Digits produced by `strftime` for the year field: pandas years are
1677..2262, hence always exactly four digits (zero-padded to four). -/
def fmtYear (n : Nat) : List Nat := [n / 1000 % 10, n / 100 % 10, n / 10 % 10, n % 10]

/-- Digits produced by `strftime` for the month and day fields: exactly two,
zero-padded. -/
def fmt2 (n : Nat) : List Nat := [n / 10 % 10, n % 10]

/-- One cell of `dim_date["OrderDate"].dt.strftime("%Y%m%d").astype(int)`
(src/etl/etl.py line 27): format the date as an eight-digit string and parse
it back as an integer. -/
def dateKeyDim (t : Timestamp) : Nat :=
  parseDigits (fmtYear t.year ++ fmt2 t.month ++ fmt2 t.day)

/-- One cell of `fact_sales["OrderDate"].dt.strftime("%Y%m%d").astype(int)`
(src/etl/etl.py line 60); textually the same computation as `dateKeyDim`. -/
def dateKeyFact (t : Timestamp) : Nat :=
  parseDigits (fmtYear t.year ++ fmt2 t.month ++ fmt2 t.day)

/-- Behaviour of `pd.to_datetime` at one cell: NaN stays missing (NaT), a
parseable string becomes its datetime, a datetime passes through, and an
unparsable string raises. -/
def toDatetimeCell : Option PDate → Except EtlErr (Option Timestamp)
  | none => .ok none
  | some (.strGood t) => .ok (some t)
  | some (.dt t) => .ok (some t)
  | some .strBad => .error .parseError

/-- Behaviour of `pd.to_datetime` over a whole column. -/
def toDatetimeCol : List (Option PDate) → Except EtlErr (List (Option Timestamp))
  | [] => .ok []
  | c :: l => do
    let t ← toDatetimeCell c
    let r ← toDatetimeCol l
    .ok (t :: r)

/-- Model of `drop_duplicates()`: keep the first occurrence of each value, in
the original order (accumulator holds the values already seen). -/
def dropDuplicatesAux [DecidableEq α] : List α → List α → List α
  | _, [] => []
  | seen, a :: l =>
    if a ∈ seen then dropDuplicatesAux seen l
    else a :: dropDuplicatesAux (a :: seen) l

/-- Model of `drop_duplicates()` on a one-column frame. -/
def dropDuplicates [DecidableEq α] (l : List α) : List α := dropDuplicatesAux [] l

/-- One row of the DimDate output, in the projected column order
DateKey, OrderDate, Year, Month, Day.  The OrderDate column keeps the full
timestamp: the code never strips the time-of-day component. -/
structure DimDateRow where
  dateKey : Nat
  orderDate : Timestamp
  year : Nat
  month : Nat
  day : Nat
deriving DecidableEq

/-- The attribute columns `transform_date` adds for one retained date cell
(src/etl/etl.py lines 27-30). -/
def mkDimDateRow (t : Timestamp) : DimDateRow :=
  ⟨dateKeyDim t, t, t.year, t.month, t.day⟩

/-- DateKey/Year/Month/Day assignment over the deduplicated column.
`.astype(int)` raises exactly when some cell is NaT, because `strftime`
turns NaT into NaN and NaN does not convert to int. -/
def addDateAttrs : List (Option Timestamp) → Except EtlErr (List DimDateRow)
  | [] => .ok []
  | none :: _ => .error .astypeError
  | some t :: l => do
    let r ← addDateAttrs l
    .ok (mkDimDateRow t :: r)

/-- Embedding of `transform_date` (src/etl/etl.py lines 22-34) with the
caller-visible state of `orders` made explicit: line 23 assigns the parsed
column back into the caller's frame, so the first component is the `orders`
frame as the caller sees it after the call (unchanged when `to_datetime`
raises, since the assignment then never happens), and the second component
is the returned frame or the raised error. -/
def transform_dateS (orders : List RawOrder) :
    List RawOrder × Except EtlErr (List DimDateRow) :=
  match toDatetimeCol (orders.map (·.orderDate)) with
  | .error e => (orders, .error e)
  | .ok col =>
    (orders.zipWith (fun o c => { o with orderDate := c.map PDate.dt }) col,
     addDateAttrs (dropDuplicates col))

/-- Result (or raised error) of `transform_date`. -/
def transform_date (orders : List RawOrder) : Except EtlErr (List DimDateRow) :=
  (transform_dateS orders).2

/-- One row of the DimProduct output. -/
structure DimProductRow where
  productID : Option Int
  productName : Option String
  category : Option String
  cost : Option Rat
deriving DecidableEq

/-- Column selection `[["ProductID", "ProductName", "Category", "Cost"]]` at
one row. -/
def selectProductCols (p : RawProduct) : DimProductRow :=
  ⟨p.productID, p.productName, p.category, p.cost⟩

/-- Embedding of `transform_product` (src/etl/etl.py lines 38-42): copy the
frame (content-preserving), then select the four analytical columns.  No row
is filtered and no deduplication happens. -/
def transform_product (products : List RawProduct) : List DimProductRow :=
  products.map selectProductCols

/-- An order row after `dropna(subset=["OrderID", "CustomerID", "ProductID",
"OrderDate", "Quantity", "Price"])`: all six critical cells are known
non-null. -/
structure CleanOrder where
  orderID : Int
  customerID : Int
  productID : Int
  orderDate : PDate
  quantity : Int
  price : Rat
deriving DecidableEq

/-- One row of the `dropna` step (src/etl/etl.py line 50): the row is kept
exactly when none of the six critical cells is missing. -/
def dropnaRow (o : RawOrder) : Option CleanOrder :=
  match o.orderID, o.customerID, o.productID, o.orderDate, o.quantity, o.price with
  | some a, some b, some c, some d, some q, some p => some ⟨a, b, c, d, q, p⟩
  | _, _, _, _, _, _ => none

/-- The boolean mask `(fact_sales["Quantity"] > 0) & (fact_sales["Price"] > 0)`
(src/etl/etl.py line 53) at one row. -/
def positiveRow (c : CleanOrder) : Bool :=
  decide (0 < c.quantity) && decide (0 < c.price)

/-- A fact row after the Revenue column has been added. -/
structure RevOrder where
  orderID : Int
  customerID : Int
  productID : Int
  orderDate : PDate
  quantity : Int
  price : Rat
  revenue : Rat
deriving DecidableEq

/-- The assignment `fact_sales["Revenue"] = fact_sales["Quantity"] *
fact_sales["Price"]` (src/etl/etl.py line 56) at one row. -/
def addRevenue (c : CleanOrder) : RevOrder :=
  ⟨c.orderID, c.customerID, c.productID, c.orderDate, c.quantity, c.price,
   (c.quantity : Rat) * c.price⟩

/-- One row of the FactSales output, in the projected column order OrderID,
CustomerID, ProductID, DateKey, Quantity, Price, Revenue
(src/etl/etl.py line 63). -/
structure FactRow where
  orderID : Int
  customerID : Int
  productID : Int
  dateKey : Nat
  quantity : Int
  price : Rat
  revenue : Rat
deriving DecidableEq

/-- Projection of one enriched row to the final fact columns, with `t` the
parsed OrderDate of the row. -/
def mkFactRow (r : RevOrder) (t : Timestamp) : FactRow :=
  ⟨r.orderID, r.customerID, r.productID, dateKeyFact t, r.quantity, r.price, r.revenue⟩

/-- Lines 59-60 of src/etl/etl.py applied to the filtered frame: parse the
OrderDate column (no cell is null here, `dropna` already ran) and derive the
DateKey; an unparsable string raises. -/
def addDateKeys : List RevOrder → Except EtlErr (List FactRow)
  | [] => .ok []
  | r :: l =>
    match r.orderDate with
    | .strBad => .error .parseError
    | .strGood t => do
      let rest ← addDateKeys l
      .ok (mkFactRow r t :: rest)
    | .dt t => do
      let rest ← addDateKeys l
      .ok (mkFactRow r t :: rest)

/-- Embedding of `transform_fact_sales` (src/etl/etl.py lines 46-65): copy,
null drop, positivity filter, revenue computation, DateKey derivation,
column projection — applied in exactly that order.  The copy on line 47
means the caller's `orders` frame is untouched. -/
def transform_fact_sales (orders : List RawOrder) : Except EtlErr (List FactRow) :=
  addDateKeys (((orders.filterMap dropnaRow).filter positiveRow).map addRevenue)

/-- A table of the warehouse SQLite file. -/
inductive WTable where
  | dimDate (rows : List DimDateRow)
  | dimProduct (rows : List DimProductRow)
  | factSales (rows : List FactRow)
  /-- A table created by something other than this pipeline. -/
  | other (tag : Nat)
deriving DecidableEq

/-- The warehouse SQLite file: a finite map from table name to table. -/
def WStore := String → Option WTable

/-- `to_sql(name, conn, if_exists="replace")`: destructively replace the one
named table, leaving every other table as it was. -/
def replaceTable (s : WStore) (n : String) (t : WTable) : WStore :=
  fun m => if m = n then some t else s m

/-- Embedding of `load` (src/etl/etl.py lines 69-82).  `env n` says whether
the `to_sql` write of table `n` succeeds; a failed write raises and its
store effect is not modelled further (the spec allows either old or new
state for that one table).  The second component records whether
`conn.close()` (line 78) ran before control left the function: the code has
no try/finally, so a raising write skips the close. -/
def load (env : String → Bool) (dimDate : List DimDateRow)
    (dimProduct : List DimProductRow) (factSales : List FactRow)
    (prior : WStore) : Except Unit WStore × Bool :=
  if env "DimDate" then
    let s1 := replaceTable prior "DimDate" (.dimDate dimDate)
    if env "DimProduct" then
      let s2 := replaceTable s1 "DimProduct" (.dimProduct dimProduct)
      if env "FactSales" then
        (.ok (replaceTable s2 "FactSales" (.factSales factSales)), true)
      else (.error (), false)
    else (.error (), false)
  else (.error (), false)

/-- Embedding of the query runner script (src/run_query.py): connect, read
the query file, execute the query, print the results, close.  `fileOk` says
whether opening/reading `sql/queries.sql` succeeds and `queryOk` whether
`pd.read_sql_query` succeeds; the result content is outside the modelled
claims, so it is `Unit`.  The second component records whether
`conn.close()` (the last line) ran: the script has no try/finally, so any
raising step skips the close. -/
def run_query (fileOk : Bool) (queryOk : Bool) : Except Unit Unit × Bool :=
  if fileOk then
    if queryOk then (.ok (), true) else (.error (), false)
  else (.error (), false)

/-- Validity of the timestamp held by one OrderDate cell (vacuously true for
null or unparsable cells).  `pd.to_datetime` only ever constructs
pandas-representable timestamps, so every frame the transforms actually see
satisfies this cellwise. -/
def cellTsValid : Option PDate → Bool
  | some (.strGood t) => tsValid t
  | some (.dt t) => tsValid t
  | _ => true

/-- Does this OrderDate cell hold a string no date format matches? -/
def isBadDateCell : Option PDate → Bool
  | some .strBad => true
  | _ => false

/-! ### Concrete inputs used by witnesses and counterexamples -/

def w1orders : List RawOrder :=
  [⟨some 1, some 9, some 5, some (.strGood ⟨2024, 3, 15, 0⟩), some 2, some 5⟩]

def w1row : FactRow := ⟨1, 9, 5, 20240315, 2, 5, 10⟩

def w2orders : List RawOrder :=
  [⟨some 1, some 9, some 5, some (.strGood ⟨2024, 3, 15, 0⟩), some 2, some 5⟩,
   ⟨some 2, some 8, some 4, some (.dt ⟨2023, 12, 1, 0⟩), some 1, some 3⟩]

def c6orders : List RawOrder :=
  [⟨some 1, some 9, some 5, some .strBad, some 1, some 5⟩]

/-- 2024-03-15 at 10:00. -/
def ts10 : Timestamp := ⟨2024, 3, 15, 36000000000000⟩

/-- 2024-03-15 at 12:00: the same calendar date as `ts10`, a different
time of day. -/
def ts12 : Timestamp := ⟨2024, 3, 15, 43200000000000⟩

/-- Two order rows on the same calendar date at different times of day. -/
def c3orders : List RawOrder :=
  [⟨some 1, some 9, some 5, some (.strGood ts10), some 2, some 5⟩,
   ⟨some 2, some 9, some 5, some (.strGood ts12), some 1, some 4⟩]

/-- Two valid order rows on the same calendar date at different times of
day. -/
def c4orders : List RawOrder :=
  [⟨some 1, some 9, some 5, some (.strGood ts10), some 2, some 5⟩,
   ⟨some 2, some 9, some 5, some (.strGood ts12), some 1, some 4⟩]

def c4facts : List FactRow :=
  [⟨1, 9, 5, 20240315, 2, 5, 10⟩, ⟨2, 9, 5, 20240315, 1, 4, 4⟩]

/-- One order row whose OrderDate cell is null, every other cell present. -/
def c5orders : List RawOrder :=
  [⟨some 1, some 9, some 5, none, some 2, some 5⟩]

/-- Is this OrderDate cell a non-null, parseable (or already parsed) date? -/
def dateCellOk : Option PDate → Bool
  | some (.strGood _) => true
  | some (.dt _) => true
  | _ => false

/-- Is this raw order row excluded from FactSales by the data-quality rules,
i.e. dropped by the null check or by the positivity filter? -/
def excludedRow (o : RawOrder) : Bool :=
  match dropnaRow o with
  | none => true
  | some cl => !positiveRow cl

def w5orders : List RawOrder :=
  [⟨some 1, some 9, some 5, some (.strGood ⟨2024, 3, 15, 0⟩), some 2, some 5⟩,
   ⟨some 2, some 9, some 5, some (.dt ⟨2024, 3, 16, 0⟩), none, some 5⟩]

def c8orders : List RawOrder :=
  [⟨some 1, some 9, some 5, some (.strGood ⟨2024, 3, 15, 0⟩), some 2, some 5⟩]

/-- The state of the caller's orders frame after `transform_date c8orders`:
the OrderDate column now holds datetime values instead of the original
strings. -/
def c8mutated : List RawOrder :=
  [⟨some 1, some 9, some 5, some (.dt ⟨2024, 3, 15, 0⟩), some 2, some 5⟩]

/-- An environment in which every table write and query succeeds. -/
def envOK : String → Bool := fun _ => true

/-- An environment in which every table write fails. -/
def envFail : String → Bool := fun _ => false

/-- A store with no tables at all. -/
def emptyStore : WStore := fun _ => none

/-- A prior store holding one table named Extra that this pipeline never
writes. -/
def c9prior : WStore := fun n => if n = "Extra" then some (.other 0) else none

/-- The table named `n` in the store produced by a run of `load`, or `none`
when the run raised. -/
def loadedTable (env : String → Bool) (dd : List DimDateRow)
    (dp : List DimProductRow) (fs : List FactRow) (prior : WStore)
    (n : String) : Option WTable :=
  match (load env dd dp fs prior).1 with
  | .ok s => s n
  | .error _ => none

/-! ### Helper lemmas -/

theorem addDateKeys_mem {l : List RevOrder} {fs : List FactRow}
    (h : addDateKeys l = .ok fs) {r : FactRow} (hr : r ∈ fs) :
    ∃ v ∈ l, ∃ t : Timestamp,
      (v.orderDate = .strGood t ∨ v.orderDate = .dt t) ∧ r = mkFactRow v t := by
  induction l generalizing fs with
  | nil =>
    simp only [addDateKeys] at h
    cases h
    simp at hr
  | cons v l ih =>
    cases hv : v.orderDate with
    | strBad => simp [addDateKeys, hv] at h
    | strGood t =>
      cases h' : addDateKeys l with
      | error e => simp [addDateKeys, hv, h', bind, Except.bind] at h
      | ok rest =>
        simp only [addDateKeys, hv, h', Except.bind, bind, pure] at h
        cases h
        rcases List.mem_cons.mp hr with hr1 | hr2
        · exact ⟨v, List.mem_cons_self .., t, Or.inl hv, hr1⟩
        · obtain ⟨v', hv', t', ho', hr'⟩ := ih h' hr2
          exact ⟨v', List.mem_cons_of_mem _ hv', t', ho', hr'⟩
    | dt t =>
      cases h' : addDateKeys l with
      | error e => simp [addDateKeys, hv, h', bind, Except.bind] at h
      | ok rest =>
        simp only [addDateKeys, hv, h', Except.bind, bind, pure] at h
        cases h
        rcases List.mem_cons.mp hr with hr1 | hr2
        · exact ⟨v, List.mem_cons_self .., t, Or.inr hv, hr1⟩
        · obtain ⟨v', hv', t', ho', hr'⟩ := ih h' hr2
          exact ⟨v', List.mem_cons_of_mem _ hv', t', ho', hr'⟩

/-! ### Claim theorems -/

/-- C1: every row retained in the output of `transform_fact_sales` has
positive Quantity, positive Price, and Revenue equal to Quantity × Price;
the steps of the pipeline (null drop, positivity filter, revenue
computation, DateKey derivation, column projection) are applied in that
order by the definition of `transform_fact_sales`. -/
theorem C1_retained_rows_positive_revenue (orders : List RawOrder)
    (fs : List FactRow) (h : transform_fact_sales orders = .ok fs) :
    ∀ r ∈ fs, 0 < r.quantity ∧ 0 < r.price ∧ r.revenue = (r.quantity : Rat) * r.price := by
  intro r hr
  obtain ⟨v, hv, t, _, hrt⟩ := addDateKeys_mem h hr
  obtain ⟨c, hc, hvc⟩ := List.mem_map.mp hv
  have hpos := (List.mem_filter.mp hc).2
  simp only [positiveRow, Bool.and_eq_true, decide_eq_true_eq] at hpos
  subst hrt
  subst hvc
  simpa [mkFactRow, addRevenue] using hpos

/-- Witness for C1 at a concrete one-row input. -/
theorem C1_witness :
    transform_fact_sales w1orders = .ok [w1row] ∧
    (∀ r ∈ [w1row], 0 < r.quantity ∧ 0 < r.price ∧ r.revenue = (r.quantity : Rat) * r.price) := by
  have hW : transform_fact_sales w1orders = .ok [w1row] := by
    simp only [transform_fact_sales, w1orders, w1row, List.filterMap, dropnaRow,
      List.filter, positiveRow, List.map, addRevenue, addDateKeys, mkFactRow,
      dateKeyFact, parseDigits, fmtYear, fmt2, bind, Except.bind]
    norm_num
  exact ⟨hW, C1_retained_rows_positive_revenue w1orders [w1row] hW⟩

/-- C7: `transform_product` returns exactly the input rows projected to the
four product columns, in order: the length is preserved (no filtering), the
row at every index is the projection of the input row at that index (no
reordering or deduplication), and the number of rows carrying any given
ProductID is preserved (duplicate ProductIDs are retained). -/
theorem C7_product_passthrough (products : List RawProduct) :
    (transform_product products).length = products.length ∧
    (∀ i : Nat, (transform_product products)[i]? = (products[i]?).map selectProductCols) ∧
    (∀ q : Option Int,
      (transform_product products).countP (fun r => decide (r.productID = q)) =
        products.countP (fun p => decide (p.productID = q))) := by
  refine ⟨List.length_map .., fun i => List.getElem?_map .., fun q => ?_⟩
  simp only [transform_product, List.countP_map]
  rfl

theorem parseDigits_fmt (y m d : Nat) (hy : y < 10000) (hm : m < 100) (hd : d < 100) :
    parseDigits (fmtYear y ++ fmt2 m ++ fmt2 d) = y * 10000 + m * 100 + d := by
  simp only [parseDigits, fmtYear, fmt2, List.cons_append, List.nil_append,
    List.foldl_cons, List.foldl_nil]
  omega

theorem dateKeyDim_eq (t : Timestamp) (h : tsValid t = true) :
    dateKeyDim t = t.year * 10000 + t.month * 100 + t.day := by
  simp only [tsValid, Bool.and_eq_true, decide_eq_true_eq] at h
  exact parseDigits_fmt _ _ _ (by omega) (by omega) (by omega)

theorem toDatetimeCol_mem {l : List (Option PDate)} {col : List (Option Timestamp)}
    (h : toDatetimeCol l = .ok col) {c : Option Timestamp} (hc : c ∈ col) :
    ∃ d ∈ l, toDatetimeCell d = .ok c := by
  induction l generalizing col with
  | nil =>
    simp only [toDatetimeCol] at h
    cases h
    simp at hc
  | cons d l ih =>
    cases hd : toDatetimeCell d with
    | error e => simp [toDatetimeCol, hd, bind, Except.bind] at h
    | ok t =>
      cases h' : toDatetimeCol l with
      | error e => simp [toDatetimeCol, hd, h', bind, Except.bind] at h
      | ok rest =>
        simp only [toDatetimeCol, hd, h', bind, Except.bind] at h
        cases h
        rcases List.mem_cons.mp hc with h1 | h2
        · exact ⟨d, List.mem_cons_self .., by rw [h1]; exact hd⟩
        · obtain ⟨d', hd', hcd'⟩ := ih h' h2
          exact ⟨d', List.mem_cons_of_mem _ hd', hcd'⟩

theorem mem_of_mem_dropDuplicatesAux [DecidableEq α] {seen l : List α} {x : α}
    (h : x ∈ dropDuplicatesAux seen l) : x ∈ l := by
  induction l generalizing seen with
  | nil => simp [dropDuplicatesAux] at h
  | cons a l ih =>
    by_cases ha : a ∈ seen
    · simp only [dropDuplicatesAux, if_pos ha] at h
      exact List.mem_cons_of_mem _ (ih h)
    · simp only [dropDuplicatesAux, if_neg ha] at h
      rcases List.mem_cons.mp h with h1 | h2
      · subst h1; exact List.mem_cons_self ..
      · exact List.mem_cons_of_mem _ (ih h2)

theorem addDateAttrs_mem {dim : List (Option Timestamp)} {dd : List DimDateRow}
    (h : addDateAttrs dim = .ok dd) {r : DimDateRow} (hr : r ∈ dd) :
    ∃ t : Timestamp, some t ∈ dim ∧ r = mkDimDateRow t := by
  induction dim generalizing dd with
  | nil =>
    simp only [addDateAttrs] at h
    cases h
    simp at hr
  | cons c dim ih =>
    cases c with
    | none => simp [addDateAttrs] at h
    | some t =>
      cases h' : addDateAttrs dim with
      | error e => simp [addDateAttrs, h', bind, Except.bind] at h
      | ok rest =>
        simp only [addDateAttrs, h', bind, Except.bind] at h
        cases h
        rcases List.mem_cons.mp hr with h1 | h2
        · exact ⟨t, List.mem_cons_self .., h1⟩
        · obtain ⟨t', ht', hr'⟩ := ih h' h2
          exact ⟨t', List.mem_cons_of_mem _ ht', hr'⟩

theorem toDatetimeCell_valid {d : Option PDate} {t : Timestamp}
    (h : toDatetimeCell d = .ok (some t)) (hv : cellTsValid d = true) :
    tsValid t = true := by
  cases d with
  | none => simp [toDatetimeCell] at h
  | some p =>
    cases p with
    | strGood t' =>
      simp only [toDatetimeCell, Except.ok.injEq, Option.some.injEq] at h
      simp only [cellTsValid] at hv
      exact h ▸ hv
    | strBad => simp [toDatetimeCell] at h
    | dt t' =>
      simp only [toDatetimeCell, Except.ok.injEq, Option.some.injEq] at h
      simp only [cellTsValid] at hv
      exact h ▸ hv

theorem dropnaRow_orderDate {o : RawOrder} {cl : CleanOrder}
    (h : dropnaRow o = some cl) : o.orderDate = some cl.orderDate := by
  obtain ⟨_ | a, _ | b, _ | c, _ | d, _ | q, _ | p⟩ := o <;> simp_all [dropnaRow]
  rw [← h]

theorem any_map_general {α β : Type} (f : α → β) (l : List α) (p : β → Bool) :
    (l.map f).any p = l.any (fun a => p (f a)) := by
  induction l <;> simp_all

/-- C2: the DateKey derivation formats the date as digits and reparses them,
and for every pandas-representable date this value is numerically
Year×10000 + Month×100 + Day; the derivation sites in `transform_date`
(`dateKeyDim`) and in `transform_fact_sales` (`dateKeyFact`) agree on every
date.  Stated over any orders input whose date cells are
pandas-representable, for both builder outputs. -/
theorem C2_dateKey_formula (orders : List RawOrder)
    (hval : orders.all (fun o => cellTsValid o.orderDate) = true) :
    (∀ dd, transform_date orders = .ok dd →
      ∀ r ∈ dd, r.dateKey = r.year * 10000 + r.month * 100 + r.day) ∧
    (∀ fs, transform_fact_sales orders = .ok fs →
      ∀ r ∈ fs, ∃ t : Timestamp,
        r.dateKey = dateKeyFact t ∧
        dateKeyFact t = t.year * 10000 + t.month * 100 + t.day) ∧
    (∀ t : Timestamp, dateKeyFact t = dateKeyDim t) := by
  rw [List.all_eq_true] at hval
  refine ⟨?_, ?_, fun _ => rfl⟩
  · intro dd hdd r hr
    unfold transform_date transform_dateS at hdd
    cases hcol : toDatetimeCol (orders.map (·.orderDate)) with
    | error e => rw [hcol] at hdd; simp at hdd
    | ok col =>
      rw [hcol] at hdd
      simp only at hdd
      obtain ⟨t, htc, hrt⟩ := addDateAttrs_mem hdd hr
      have htcol : some t ∈ col := mem_of_mem_dropDuplicatesAux htc
      obtain ⟨d, hdmem, hdc⟩ := toDatetimeCol_mem hcol htcol
      obtain ⟨o, ho, hod⟩ := List.mem_map.mp hdmem
      have hv : cellTsValid d = true := by
        have := hval o ho
        simpa [hod] using this
      have htv := toDatetimeCell_valid hdc hv
      subst hrt
      simpa [mkDimDateRow] using dateKeyDim_eq t htv
  · intro fs hfs r hr
    obtain ⟨v, hv, t, hod, hrt⟩ := addDateKeys_mem hfs hr
    obtain ⟨cl, hcl, hvc⟩ := List.mem_map.mp hv
    obtain ⟨o, ho, hoc⟩ := List.mem_filterMap.mp (List.mem_filter.mp hcl).1
    have hcell : cellTsValid o.orderDate = true := hval o ho
    rw [dropnaRow_orderDate hoc] at hcell
    have hvod : v.orderDate = cl.orderDate := by rw [← hvc]; rfl
    have htv : tsValid t = true := by
      rcases hod with hsg | hdt
      · rw [hvod] at hsg; rw [hsg] at hcell; simpa [cellTsValid] using hcell
      · rw [hvod] at hdt; rw [hdt] at hcell; simpa [cellTsValid] using hcell
    refine ⟨t, ?_, ?_⟩
    · subst hrt; rfl
    · show dateKeyDim t = _
      exact dateKeyDim_eq t htv

/-- Witness for C2 at a concrete two-row input. -/
theorem C2_witness :
    (w2orders.all (fun o => cellTsValid o.orderDate) = true) ∧
    ((∀ dd, transform_date w2orders = .ok dd →
      ∀ r ∈ dd, r.dateKey = r.year * 10000 + r.month * 100 + r.day) ∧
    (∀ fs, transform_fact_sales w2orders = .ok fs →
      ∀ r ∈ fs, ∃ t : Timestamp,
        r.dateKey = dateKeyFact t ∧
        dateKeyFact t = t.year * 10000 + t.month * 100 + t.day) ∧
    (∀ t : Timestamp, dateKeyFact t = dateKeyDim t)) :=
  ⟨by decide, C2_dateKey_formula w2orders (by decide)⟩

theorem toDatetimeCol_error_of_bad {l : List (Option PDate)}
    (h : l.any isBadDateCell = true) :
    toDatetimeCol l = .error .parseError := by
  induction l with
  | nil => simp at h
  | cons d l ih =>
    rcases d with _ | p
    · simp only [List.any_cons, isBadDateCell, Bool.false_or] at h
      simp [toDatetimeCol, toDatetimeCell, ih h, bind, Except.bind]
    · rcases p with t | _ | t
      · simp only [List.any_cons, isBadDateCell, Bool.false_or] at h
        simp [toDatetimeCol, toDatetimeCell, ih h, bind, Except.bind]
      · simp [toDatetimeCol, toDatetimeCell, bind, Except.bind]
      · simp only [List.any_cons, isBadDateCell, Bool.false_or] at h
        simp [toDatetimeCol, toDatetimeCell, ih h, bind, Except.bind]

/-- C6: on any orders input containing an unparsable OrderDate value,
`transform_date` raises (`pd.to_datetime` fails on the whole column) and
produces no dimension output. -/
theorem C6_unparsable_date_raises (orders : List RawOrder)
    (h : orders.any (fun o => isBadDateCell o.orderDate) = true) :
    transform_date orders = .error .parseError := by
  have hcol : (orders.map (·.orderDate)).any isBadDateCell = true := by
    rw [any_map_general]; exact h
  unfold transform_date transform_dateS
  rw [toDatetimeCol_error_of_bad hcol]

/-- Witness for C6 at a concrete one-row input with an unparsable date. -/
theorem C6_witness :
    (c6orders.any (fun o => isBadDateCell o.orderDate) = true) ∧
    transform_date c6orders = .error .parseError :=
  ⟨by decide, C6_unparsable_date_raises c6orders (by decide)⟩

theorem all_map_general {α β : Type} (f : α → β) (l : List α) (p : β → Bool) :
    (l.map f).all p = l.all (fun a => p (f a)) := by
  induction l <;> simp_all

/-- C3 (evaluated at the failing input): two orders on the same calendar
date at different times of day produce two DimDate rows, not one, and both
rows carry the same DateKey 20240315 — `pd.to_datetime` keeps the
time-of-day component and `drop_duplicates` deduplicates by exact timestamp,
so DateKey is not unique. -/
theorem C3_time_of_day_not_discarded :
    transform_date c3orders =
      .ok [⟨20240315, ts10, 2024, 3, 15⟩, ⟨20240315, ts12, 2024, 3, 15⟩] ∧
    ts10 ≠ ts12 ∧ ts10.year = ts12.year ∧ ts10.month = ts12.month ∧ ts10.day = ts12.day :=
  ⟨rfl, by decide, rfl, rfl, rfl⟩

/-- C4 (evaluated at the failing input): on the same two-row input both
builders succeed, every FactSales row carries DateKey 20240315, and the
DimDate output contains two rows with DateKey 20240315 — so a FactSales
DateKey matches two DimDate rows, not exactly one. -/
theorem C4_dateKey_matches_two_dim_rows :
    transform_fact_sales c4orders = .ok c4facts ∧
    c4facts.all (fun f => f.dateKey == 20240315) = true ∧
    transform_date c4orders =
      .ok [⟨20240315, ts10, 2024, 3, 15⟩, ⟨20240315, ts12, 2024, 3, 15⟩] ∧
    (([⟨20240315, ts10, 2024, 3, 15⟩, ⟨20240315, ts12, 2024, 3, 15⟩] : List DimDateRow).filter
        (fun d => d.dateKey == 20240315)).length = 2 := by
  refine ⟨?_, by decide, rfl, by decide⟩
  simp only [transform_fact_sales, c4orders, c4facts, List.filterMap, dropnaRow,
    List.filter, positiveRow, List.map, addRevenue, addDateKeys, mkFactRow,
    dateKeyFact, parseDigits, fmtYear, fmt2, ts10, ts12, bind, Except.bind]
  norm_num

/-- Counterexample to C5 as stated: on an input whose only row has a null
OrderDate (all other cells present), `transform_date` raises instead of
completing — NaT survives to `strftime`, which yields NaN, and
`.astype(int)` fails on NaN. -/
theorem C5_null_orderdate_raises :
    (c5orders.any (fun o => o.orderDate.isNone) = true) ∧
    transform_date c5orders = .error .astypeError :=
  ⟨by decide, rfl⟩

theorem toDatetimeCol_ok_of_dateCellOk {l : List (Option PDate)}
    (h : l.all dateCellOk = true) :
    ∃ col, toDatetimeCol l = .ok col ∧ col.all Option.isSome = true := by
  induction l with
  | nil => exact ⟨[], rfl, rfl⟩
  | cons d l ih =>
    simp only [List.all_cons, Bool.and_eq_true] at h
    obtain ⟨col, hcol, hsome⟩ := ih h.2
    rcases d with _ | p
    · simp [dateCellOk] at h
    · rcases p with t | _ | t
      · exact ⟨some t :: col,
          by simp [toDatetimeCol, toDatetimeCell, hcol, bind, Except.bind],
          by simp [hsome]⟩
      · simp [dateCellOk] at h
      · exact ⟨some t :: col,
          by simp [toDatetimeCol, toDatetimeCell, hcol, bind, Except.bind],
          by simp [hsome]⟩

theorem addDateAttrs_ok_of_isSome {dim : List (Option Timestamp)}
    (h : dim.all Option.isSome = true) : ∃ dd, addDateAttrs dim = .ok dd := by
  induction dim with
  | nil => exact ⟨[], rfl⟩
  | cons c dim ih =>
    simp only [List.all_cons, Bool.and_eq_true] at h
    obtain ⟨dd, hdd⟩ := ih h.2
    rcases c with _ | t
    · simp at h
    · exact ⟨mkDimDateRow t :: dd, by simp [addDateAttrs, hdd, bind, Except.bind]⟩

theorem addDateKeys_ok_of_not_bad {l : List RevOrder}
    (h : ∀ r ∈ l, r.orderDate ≠ .strBad) :
    ∃ fs, addDateKeys l = .ok fs ∧ fs.length = l.length := by
  induction l with
  | nil => exact ⟨[], rfl, rfl⟩
  | cons v l ih =>
    obtain ⟨fs, hfs, hlen⟩ := ih (fun r hr => h r (List.mem_cons_of_mem _ hr))
    cases hv : v.orderDate with
    | strBad => exact absurd hv (h v (List.mem_cons_self ..))
    | strGood t =>
      exact ⟨mkFactRow v t :: fs,
        by simp [addDateKeys, hv, hfs, bind, Except.bind], by simp [hlen]⟩
    | dt t =>
      exact ⟨mkFactRow v t :: fs,
        by simp [addDateKeys, hv, hfs, bind, Except.bind], by simp [hlen]⟩

theorem kept_add_excluded (orders : List RawOrder) :
    ((orders.filterMap dropnaRow).filter positiveRow).length +
      orders.countP excludedRow = orders.length := by
  induction orders with
  | nil => rfl
  | cons o l ih =>
    cases hd : dropnaRow o with
    | none =>
      have he : excludedRow o = true := by unfold excludedRow; rw [hd]
      simp [List.filterMap_cons, hd, List.countP_cons, he]
      omega
    | some cl =>
      have he : excludedRow o = !positiveRow cl := by unfold excludedRow; rw [hd]
      cases hp : positiveRow cl with
      | true =>
        rw [hp] at he
        simp [List.filterMap_cons, hd, List.filter_cons, hp, List.countP_cons, he]
        omega
      | false =>
        rw [hp] at he
        simp [List.filterMap_cons, hd, List.filter_cons, hp, List.countP_cons, he]
        omega

/-- C5 as amended: when every OrderDate cell is non-null and parseable,
rows with nulls among the remaining critical fields (and rows failing the
positivity filter) are silently excluded: the whole transform stage
completes without raising (`transform_product` is total by definition), and
the FactSales row count is the input count minus the excluded rows. -/
theorem C5_nulls_silently_excluded (orders : List RawOrder)
    (h : orders.all (fun o => dateCellOk o.orderDate) = true) :
    (∃ dd, transform_date orders = .ok dd) ∧
    (∃ fs, transform_fact_sales orders = .ok fs ∧
      fs.length + orders.countP excludedRow = orders.length) := by
  constructor
  · have hall : (orders.map (·.orderDate)).all dateCellOk = true := by
      rw [all_map_general]; exact h
    obtain ⟨col, hcol, hsome⟩ := toDatetimeCol_ok_of_dateCellOk hall
    have hsome' : (dropDuplicates col).all Option.isSome = true := by
      rw [List.all_eq_true] at hsome ⊢
      exact fun x hx => hsome x (mem_of_mem_dropDuplicatesAux hx)
    obtain ⟨dd, hdd⟩ := addDateAttrs_ok_of_isSome hsome'
    refine ⟨dd, ?_⟩
    unfold transform_date transform_dateS
    rw [hcol]
    exact hdd
  · have hnb : ∀ r ∈ ((orders.filterMap dropnaRow).filter positiveRow).map addRevenue,
        r.orderDate ≠ .strBad := by
      intro r hr hbad
      obtain ⟨cl, hcl, hrc⟩ := List.mem_map.mp hr
      obtain ⟨o, ho, hoc⟩ := List.mem_filterMap.mp (List.mem_filter.mp hcl).1
      have hcell := (List.all_eq_true.mp h) o ho
      rw [dropnaRow_orderDate hoc] at hcell
      have : cl.orderDate = .strBad := by rw [← hrc] at hbad; exact hbad
      rw [this] at hcell
      simp [dateCellOk] at hcell
    obtain ⟨fs, hfs, hlen⟩ := addDateKeys_ok_of_not_bad hnb
    refine ⟨fs, hfs, ?_⟩
    rw [hlen, List.length_map]
    exact kept_add_excluded orders

/-- Witness for the amended C5 at a concrete input containing a null
Quantity. -/
theorem C5_witness :
    (w5orders.all (fun o => dateCellOk o.orderDate) = true) ∧
    ((∃ dd, transform_date w5orders = .ok dd) ∧
    (∃ fs, transform_fact_sales w5orders = .ok fs ∧
      fs.length + w5orders.countP excludedRow = w5orders.length)) :=
  ⟨by decide, C5_nulls_silently_excluded w5orders (by decide)⟩

/-- C8 (evaluated at the failing input): `transform_date` mutates the
caller's orders frame — after the call the OrderDate column holds datetime
values in place of the original strings, so the input is not left
unchanged.  (`transform_product` and `transform_fact_sales` copy first and
are modelled as pure functions of their input.) -/
theorem C8_transform_date_mutates_input :
    (transform_dateS c8orders).1 = c8mutated ∧
    c8mutated.map (·.orderDate) ≠ c8orders.map (·.orderDate) :=
  ⟨rfl, by decide⟩

/-- Counterexample to C9 as stated: after a fully successful load over a
prior store holding a table named Extra, that table is still present — the
store does not contain only the three warehouse tables. -/
theorem C9_extra_table_persists :
    (load envOK [] [] [] c9prior).2 = true ∧
    (load envOK [] [] [] c9prior).1.isOk = true ∧
    loadedTable envOK [] [] [] c9prior "Extra" = some (.other 0) ∧
    "Extra" ≠ "DimDate" ∧ "Extra" ≠ "DimProduct" ∧ "Extra" ≠ "FactSales" :=
  ⟨rfl, rfl, rfl, by decide, by decide, by decide⟩

/-- C9 as amended: after a successful load the store holds the three tables
DimDate, DimProduct, FactSales, each equal to the corresponding builder
output (any prior table of the same name destructively replaced), and every
table under any other name is exactly as it was in the prior store. -/
theorem C9_load_replace_semantics (env : String → Bool) (dd : List DimDateRow)
    (dp : List DimProductRow) (fs : List FactRow) (prior : WStore)
    (h1 : env "DimDate" = true) (h2 : env "DimProduct" = true)
    (h3 : env "FactSales" = true) :
    (load env dd dp fs prior).2 = true ∧
    loadedTable env dd dp fs prior "DimDate" = some (.dimDate dd) ∧
    loadedTable env dd dp fs prior "DimProduct" = some (.dimProduct dp) ∧
    loadedTable env dd dp fs prior "FactSales" = some (.factSales fs) ∧
    (∀ n : String, n ≠ "DimDate" → n ≠ "DimProduct" → n ≠ "FactSales" →
      loadedTable env dd dp fs prior n = prior n) := by
  refine ⟨by simp [load, h1, h2, h3], by simp [load, loadedTable, h1, h2, h3, replaceTable],
    by simp [load, loadedTable, h1, h2, h3, replaceTable],
    by simp [load, loadedTable, h1, h2, h3, replaceTable], ?_⟩
  intro n hn1 hn2 hn3
  simp [load, loadedTable, h1, h2, h3, replaceTable, hn1, hn2, hn3]

/-- Witness for the amended C9 over an initially empty store. -/
theorem C9_witness :
    (envOK "DimDate" = true) ∧ (envOK "DimProduct" = true) ∧
    (envOK "FactSales" = true) ∧
    ((load envOK [] [] [] emptyStore).2 = true ∧
    loadedTable envOK [] [] [] emptyStore "DimDate" = some (.dimDate []) ∧
    loadedTable envOK [] [] [] emptyStore "DimProduct" = some (.dimProduct []) ∧
    loadedTable envOK [] [] [] emptyStore "FactSales" = some (.factSales []) ∧
    (∀ n : String, n ≠ "DimDate" → n ≠ "DimProduct" → n ≠ "FactSales" →
      loadedTable envOK [] [] [] emptyStore n = emptyStore n)) :=
  ⟨rfl, rfl, rfl, C9_load_replace_semantics envOK [] [] [] emptyStore rfl rfl rfl⟩

/-- Counterexample to C10 as stated: in an execution of `load` whose first
table write raises, and in an execution of the query runner whose query-file
read raises, the operation terminates with an error and the connection is
never closed. -/
theorem C10_close_skipped_on_error :
    (load envFail [] [] [] emptyStore).1.isOk = false ∧
    (load envFail [] [] [] emptyStore).2 = false ∧
    (run_query false true).1.isOk = false ∧
    (run_query false true).2 = false :=
  ⟨rfl, rfl, rfl, rfl⟩

/-- C10 as amended: in both `load` and the query runner the connection is
closed exactly on the successful exit path — it is closed if and only if the
operation completed without an error, and an execution that raises
propagates the failure with the connection left open. -/
theorem C10_close_iff_success (env : String → Bool) (dd : List DimDateRow)
    (dp : List DimProductRow) (fs : List FactRow) (prior : WStore)
    (fileOk queryOk : Bool) :
    ((load env dd dp fs prior).2 = true ↔ (load env dd dp fs prior).1.isOk = true) ∧
    ((run_query fileOk queryOk).2 = true ↔ (run_query fileOk queryOk).1.isOk = true) := by
  constructor
  · cases h1 : env "DimDate" <;> cases h2 : env "DimProduct" <;>
      cases h3 : env "FactSales" <;> simp [load, h1, h2, h3, Except.isOk, Except.toBool]
  · cases fileOk <;> cases queryOk <;> simp [run_query, Except.isOk, Except.toBool]
